import Mathlib

/-
Verification development for the MorphoSource CSV processor
(scripts/morphocompare.py).

Shallow embedding conventions:
* Python dynamic values that can flow through the id / spacing fields are
  modelled by the inductive type `PyVal` (`None`, `str`, `float`, `list`).
* Python floats are modelled exactly by decimal fixed-point rationals
  `Dec` (an integer numerator over a power of ten); every float literal
  the program manipulates comes from a decimal string, and the only float
  operations the program performs (subtraction, `abs`, `<=`) are exact on
  this representation.  `Dec.val` gives the denoted rational.
* Fallible Python code (an uncaught exception) is modelled with
  `Except Unit`; a caught-and-swallowed exception is modelled by the value
  the handler produces.
* `str.strip()` is modelled by `pyStrip`; `float(s)` on a string is
  modelled by the decimal/scientific parser `parseFloat?` (it rejects the
  special spellings `inf`/`nan`, which no theorem below depends on).
* `str(v)` on a non-string value is modelled schematically by `pyStr`
  (no theorem depends on the rendering of a float or a list, only on
  `pyStr` of strings, where it is the identity, as in Python).
-/

set_option autoImplicit false

/-- Exact decimal fixed-point number `num / 10 ^ exp`, the model of a
Python float in this program (all of its floats come from decimal
strings or decimal literals). -/
structure Dec where
  num : ℤ
  exp : ℕ
  deriving DecidableEq

/-- The rational value denoted by a `Dec`. -/
def Dec.val (d : Dec) : ℚ := (d.num : ℚ) / 10 ^ d.exp

/-- Exact subtraction on `Dec` (models float subtraction). -/
def Dec.sub (a b : Dec) : Dec :=
  ⟨a.num * 10 ^ b.exp - b.num * 10 ^ a.exp, a.exp + b.exp⟩

/-- Absolute value on `Dec` (models Python `abs`). -/
def Dec.dabs (a : Dec) : Dec := ⟨|a.num|, a.exp⟩

/-- Order test on `Dec` (models float `<=`), by cross-multiplication. -/
def Dec.dle (a b : Dec) : Bool :=
  decide (a.num * 10 ^ b.exp ≤ b.num * 10 ^ a.exp)

/-- Model of a Python value as it appears in the id / spacing fields of a
CSV row or of a MorphoSource media item: `None`, a string, a float or a
list. -/
inductive PyVal where
  | vNone
  | vStr (s : String)
  | vFloat (d : Dec)
  | vList (l : List PyVal)

open PyVal

/-- Models the Python test `v is None`. -/
def PyVal.isNone : PyVal → Bool
  | vNone => true
  | _ => false

/-- Models Python truthiness (`if v:`) for the values of `PyVal`. -/
def pyTruthy : PyVal → Bool
  | vNone => false
  | vStr s => s ≠ ""
  | vFloat d => d.num ≠ 0
  | vList [] => false
  | vList (_ :: _) => true

/-- Models Python `str(v)`.  On strings it is the identity, exactly as in
Python; the renderings of `None`, floats and lists are schematic (no
theorem below depends on them). -/
def pyStr : PyVal → String
  | vNone => "None"
  | vStr s => s
  | vFloat d => toString d.num ++ "e-" ++ toString d.exp
  | vList _ => "[...]"

/-- The whitespace characters stripped by Python's `str.strip()`. -/
def isPySpace (c : Char) : Bool :=
  c = ' ' || c = '\t' || c = '\n' || c = '\x0d' || c = '\x0b' || c = '\x0c'

/-- Drop the leading run of whitespace from a character list. -/
def dropSpaces : List Char → List Char
  | [] => []
  | c :: rest => if isPySpace c then dropSpaces rest else c :: rest

/-- Model of Python `str.strip()`: remove leading and trailing
whitespace. -/
def pyStrip (s : String) : String :=
  String.mk ((dropSpaces (dropSpaces s.toList).reverse).reverse)

/-- Value of a digit string, most significant digit first. -/
def digitsToNat (cs : List Char) : ℕ :=
  cs.foldl (fun n c => 10 * n + (c.toNat - 48)) 0

/-- Split a character list into its leading run of decimal digits and the
rest. -/
def splitDigits : List Char → List Char × List Char
  | [] => ([], [])
  | c :: rest =>
    if c.isDigit then
      let p := splitDigits rest
      (c :: p.1, p.2)
    else ([], c :: rest)

/-- Consume an optional leading sign, returning whether it was `-` and
the rest. -/
def parseSign : List Char → Bool × List Char
  | '+' :: rest => (false, rest)
  | '-' :: rest => (true, rest)
  | cs => (false, cs)

/-- Apply a scientific-notation exponent suffix (already past the
`e`/`E`) to a parsed mantissa. -/
def applyExponent (base : Dec) (rest : List Char) : Option Dec :=
  let es := parseSign rest
  let ed := splitDigits es.2
  if ed.1 = [] ∨ ed.2 ≠ [] then none
  else if es.1 then some ⟨base.num, base.exp + digitsToNat ed.1⟩
  else some ⟨base.num * 10 ^ digitsToNat ed.1, base.exp⟩

/-- Model of Python `float(s)` on a string: optional surrounding
whitespace, optional sign, decimal digits with an optional fractional
part, optional scientific exponent.  `none` models `float` raising
`ValueError`. -/
def parseFloat? (s : String) : Option Dec :=
  let p0 := parseSign (pyStrip s).toList
  let ip := splitDigits p0.2
  let fp : List Char × List Char :=
    match ip.2 with
    | '.' :: rest => splitDigits rest
    | rest => ([], rest)
  if ip.1 = [] ∧ fp.1 = [] then none
  else
    let mag : ℤ := (digitsToNat ip.1 * 10 ^ fp.1.length + digitsToNat fp.1 : ℕ)
    let base : Dec := ⟨if p0.1 then -mag else mag, fp.1.length⟩
    match fp.2 with
    | [] => some base
    | 'e' :: rest => applyExponent base rest
    | 'E' :: rest => applyExponent base rest
    | _ => none

/-- Model of Python `float(v)` applied to a `PyVal`; `none` models the
call raising (`ValueError` on a non-numeric string, `TypeError` on `None`
or a list). -/
def pyFloat? : PyVal → Option Dec
  | vStr s => parseFloat? s
  | vFloat d => some d
  | vNone => none
  | vList _ => none

/-- `construct_specimen_id` (morphocompare.py lines 26-41), applied to the
three row fields after Python's `str(...)` coercion.  Mirrors
`not all([institution, collection, catalog]) or
any(x in ['nan', 'None'] for x in [institution, collection, catalog])`. -/
def construct_specimen_id (institution_code collection_code catalog_number : String) :
    Option String :=
  let institution := pyStrip institution_code
  let collection := pyStrip collection_code
  let catalog := pyStrip catalog_number
  if !([institution, collection, catalog].all fun x => x ≠ "") ||
      ([institution, collection, catalog].any fun x => x == "nan" || x == "None") then
    none
  else
    some (institution ++ ":" ++ collection ++ ":" ++ catalog)

/-- A MorphoSource media item, restricted to the fields the processor
reads.  `id` is `none` when the `'id'` key is absent from the JSON record
(the source distinguishes a missing key via `.get('id', [''])`); the
three spacing fields use `vNone` for both an absent key and an explicit
`None`, exactly as `.get` with default `None` does. -/
structure MediaItem where
  id : Option PyVal
  x_pixel_spacing : PyVal
  y_pixel_spacing : PyVal
  z_pixel_spacing : PyVal

/-- `get_first_value` (lines 110-113): first element of a list-valued
field (`None` when the list is empty), the value itself otherwise. -/
def get_first_value : PyVal → PyVal
  | vList [] => vNone
  | vList (a :: _) => a
  | v => v

/-- One statement `if v: v = float(v)` of the conversion block (lines
120-122): a falsy value is left unchanged, a truthy one is converted;
`none` models `float` raising inside the shared `try`. -/
def convStep (v : PyVal) : Option PyVal :=
  if pyTruthy v then (pyFloat? v).map vFloat else some v

/-- `extract_voxel_spacing` (lines 108-126).  The three conversions run
inside a single `try` with an empty `except`: the first failing
conversion aborts the block, so earlier axes keep their converted values
while the failing axis and the later ones keep their pre-conversion
values. -/
def extract_voxel_spacing (m : MediaItem) : PyVal × PyVal × PyVal :=
  let x0 := get_first_value m.x_pixel_spacing
  let y0 := get_first_value m.y_pixel_spacing
  let z0 := get_first_value m.z_pixel_spacing
  match convStep x0 with
  | none => (x0, y0, z0)
  | some x1 =>
    match convStep y0 with
    | none => (x1, y0, z0)
    | some y1 =>
      match convStep z0 with
      | none => (x1, y1, z0)
      | some z1 => (x1, y1, z1)

/-- The local-value conversion of `compare_voxel_spacing` (lines
131-133): `float(csv_x) if csv_x is not None and str(csv_x).strip() != ''
else None`.  `.error ()` models the conversion raising (caught at line
144, making the comparator return `False`). -/
def csvToFloat : PyVal → Except Unit (Option Dec)
  | vNone => .ok none
  | vStr s =>
    if pyStrip s = "" then .ok none
    else
      match parseFloat? s with
      | some d => .ok (some d)
      | none => .error ()
  | vFloat d => .ok (some d)
  | vList _ => .error ()

/-- `compare_voxel_spacing` (lines 128-146).  The first fall-through arm
covers both the `None in [...]` test (line 135) and the `TypeError`
raised by `abs(float - nonfloat)` (lines 138-140, caught at line 144);
the second covers a raising local conversion or a `None`/blank local
value.  Every caught exception makes the function return `False`. -/
def compare_voxel_spacing (csv_x csv_y csv_z api_x api_y api_z : PyVal)
    (tolerance : Dec) : Bool :=
  match csvToFloat csv_x, csvToFloat csv_y, csvToFloat csv_z with
  | .ok (some cx), .ok (some cy), .ok (some cz) =>
    (match api_x, api_y, api_z with
     | vFloat ax, vFloat ay, vFloat az =>
       Dec.dle (Dec.dabs (Dec.sub cx ax)) tolerance &&
         Dec.dle (Dec.dabs (Dec.sub cy ay)) tolerance &&
         Dec.dle (Dec.dabs (Dec.sub cz az)) tolerance
     | _, _, _ => false)
  | _, _, _ => false

/-- The default tolerance `0.0001` of `compare_voxel_spacing`
(line 128). -/
def defaultTolerance : Dec := ⟨1, 4⟩

/-- Extraction of a media item's id inside the candidate loops (lines
228-230 and 256-258): `media_id = media_item.get('id')`, then the first
element if it is a list (`None` when the list is empty). -/
def getMediaId (m : MediaItem) : PyVal :=
  match m.id with
  | none => vNone
  | some (vList []) => vNone
  | some (vList (a :: _)) => a
  | some v => v

/-- `str(media_id) if media_id else ''` (lines 241 and 264). -/
def mediaIdStr (m : MediaItem) : String :=
  if pyTruthy (getMediaId m) then pyStr (getMediaId m) else ""

/-- The `best_match_info` dictionary built by the selection block (lines
240-246, 279-285, 292-298): a stringified media id, the three extracted
API spacing values (`vNone` for `None`) and the internal match-status
string. -/
structure MatchInfo where
  media_id : String
  api_x : PyVal
  api_y : PyVal
  api_z : PyVal
  status : String

/-- An entry of the `available_scans` list (lines 263-275). -/
structure ScanEntry where
  media_id : String
  api_x : PyVal
  api_y : PyVal
  api_z : PyVal

/-- The first candidate loop (lines 227-250): scan candidates in catalog
order; the first one whose extracted spacing and the local spacing are
all non-`None` and whose comparison succeeds becomes the `Verified`
`best_match_info`; the loop breaks there. -/
def findVerified (cx cy cz : PyVal) : List MediaItem → Option MatchInfo
  | [] => none
  | m :: rest =>
    let e := extract_voxel_spacing m
    if (!e.1.isNone && !e.2.1.isNone && !e.2.2.isNone &&
        !cx.isNone && !cy.isNone && !cz.isNone) &&
        compare_voxel_spacing cx cy cz e.1 e.2.1 e.2.2 defaultTolerance then
      some ⟨mediaIdStr m, e.1, e.2.1, e.2.2, "Verified"⟩
    else findVerified cx cy cz rest

/-- The availability test of line 262: all three extracted spacing values
are not `None` (a non-numeric string or any other non-`None` value
passes). -/
def hasFullSpacing (m : MediaItem) : Bool :=
  let e := extract_voxel_spacing m
  !e.1.isNone && !e.2.1.isNone && !e.2.2.isNone

/-- The `available_scans` list (lines 254-275): one full entry per
candidate whose extracted spacing is all non-`None`, and one id-only
entry (spacing fields `None`) per remaining candidate with a truthy
media id. -/
def available_scans : List MediaItem → List ScanEntry
  | [] => []
  | m :: rest =>
    let e := extract_voxel_spacing m
    if hasFullSpacing m then
      ⟨mediaIdStr m, e.1, e.2.1, e.2.2⟩ :: available_scans rest
    else if pyTruthy (getMediaId m) then
      ⟨pyStr (getMediaId m), vNone, vNone, vNone⟩ :: available_scans rest
    else
      available_scans rest

/-- Python string subscripting `s[0]` followed by `str(...)`: the
one-character string, or an `IndexError` (modelled by `.error ()`) on an
empty string. -/
def strIndex0 (s : String) : Except Unit String :=
  match s.toList with
  | [] => .error ()
  | c :: _ => .ok (String.mk [c])

/-- `str(media_items[0].get('id', [''])[0])` (line 293): the fallback id
of the `Found but no voxel data` branch.  The subscript `[0]` raises an
`IndexError` on `''` or `[]` and a `TypeError` on `None` or a float
(modelled by `.error ()`); only an absent `'id'` key (default `['']`) or
a non-empty list value subscripts safely. -/
def fallbackId (m : MediaItem) : Except Unit String :=
  match m.id with
  | none => .ok ""
  | some (vList []) => .error ()
  | some (vList (a :: _)) => .ok (pyStr a)
  | some (vStr s) => strIndex0 s
  | some vNone => .error ()
  | some (vFloat _) => .error ()

/-- The whole selection block for a found row (lines 224-299), producing
`best_match_info`: first candidate loop (`Verified`), then first entry of
`available_scans` (`Available but no spacing match`), then the fallback
(`Found but no voxel data`).  `.error ()` models the uncaught exception
of the fallback id expression aborting the run. -/
def selectBestMatch (cx cy cz : PyVal) (media_items : List MediaItem) :
    Except Unit (Option MatchInfo) :=
  match findVerified cx cy cz media_items with
  | some info => .ok (some info)
  | none =>
    match available_scans media_items with
    | e :: _ => .ok (some ⟨e.media_id, e.api_x, e.api_y, e.api_z,
        "Available but no spacing match"⟩)
    | [] =>
      match media_items with
      | [] => .ok (some ⟨"", vNone, vNone, vNone, "Found but no voxel data"⟩)
      | m :: _ =>
        (fallbackId m).map fun s =>
          some ⟨s, vNone, vNone, vNone, "Found but no voxel data"⟩

/-- The result columns appended to a found row (lines 301-325). -/
structure RowResult where
  morphosource_status : String
  matched_media_id : String
  match_status : String
  api_x_spacing : String
  api_y_spacing : String
  api_z_spacing : String

/-- Lines 301-325: translate `best_match_info` into the appended result
columns.  `match_status` is `Yes` for a `Verified` info, `Mismatch` when
the bound `api_x` is not `None`, `Missing Data` otherwise; spacing
columns are stringified when not `None`, blank otherwise. -/
def setResultFields (info? : Option MatchInfo) : RowResult :=
  match info? with
  | some info =>
    { morphosource_status := "Found"
      matched_media_id := info.media_id
      match_status :=
        if info.status == "Verified" then "Yes"
        else if !info.api_x.isNone then "Mismatch"
        else "Missing Data"
      api_x_spacing := if !info.api_x.isNone then pyStr info.api_x else ""
      api_y_spacing := if !info.api_y.isNone then pyStr info.api_y else ""
      api_z_spacing := if !info.api_z.isNone then pyStr info.api_z else "" }
  | none =>
    { morphosource_status := "Found"
      matched_media_id := ""
      match_status := "Missing Data"
      api_x_spacing := ""
      api_y_spacing := ""
      api_z_spacing := "" }

/-- Selection plus result-column translation for a found row: the Match
Selector of the specification. -/
def rowOutcome (cx cy cz : PyVal) (media_items : List MediaItem) :
    Except Unit RowResult :=
  (selectBestMatch cx cy cz media_items).map setResultFields

/-- A CSV row (a pandas `Series`) as an ordered association list of
column names to values. -/
abbrev Row : Type := List (String × PyVal)

/-- `row.get(col, default)` on a pandas row: the first value stored under
the column name, or the default. -/
def rowGetD (row : Row) (k : String) (d : PyVal) : PyVal :=
  match List.find? (fun p => p.1 == k) row with
  | some p => p.2
  | none => d

/-- `result_row[col] = v` on a pandas row: replace the value in place if
the column exists, append a new column at the end otherwise. -/
def setItem (row : Row) (k : String) (v : PyVal) : Row :=
  if List.any row (fun p => p.1 == k) then
    List.map (fun p => if p.1 == k then (k, v) else p) row
  else
    row ++ [(k, v)]

/-- The per-row column assignments of `process_csv` (line 183 and each
branch of lines 186-191, 201-206, 301-325): the constructed specimen id
followed by the six result columns, always set in this order. -/
def annotateRow (row : Row) (sid : PyVal) (res : RowResult) : Row :=
  let r1 := setItem row "constructed_specimen_id" sid
  let r2 := setItem r1 "morphosource_status" (vStr res.morphosource_status)
  let r3 := setItem r2 "matched_media_id" (vStr res.matched_media_id)
  let r4 := setItem r3 "match_status" (vStr res.match_status)
  let r5 := setItem r4 "api_x_spacing" (vStr res.api_x_spacing)
  let r6 := setItem r5 "api_y_spacing" (vStr res.api_y_spacing)
  setItem r6 "api_z_spacing" (vStr res.api_z_spacing)

/-- Processing of one input row by `process_csv` (lines 177-327),
with the catalog search abstracted as a function from the specimen id to
the identity-filtered candidate list.  Produces the annotated copy of the
row, or `.error ()` when the selection block raises (which aborts the
whole run).  The `No Specimen ID` branch stores `None` under
`constructed_specimen_id`, as the source does. -/
def processRow (search : String → List MediaItem) (row : Row) :
    Except Unit Row :=
  match construct_specimen_id
      (pyStr (rowGetD row "institution_code" (vStr "")))
      (pyStr (rowGetD row "collection_code" (vStr "")))
      (pyStr (rowGetD row "catalog_number" (vStr ""))) with
  | none =>
    .ok (annotateRow row vNone ⟨"No Specimen ID", "", "No", "", "", ""⟩)
  | some sid =>
    match search sid with
    | [] =>
      .ok (annotateRow row (vStr sid) ⟨"Not Found", "", "No", "", "", ""⟩)
    | m :: rest =>
      (rowOutcome (rowGetD row "Voxel_x_spacing" vNone)
          (rowGetD row "Voxel_y_spacing" vNone)
          (rowGetD row "Voxel_z_spacing" vNone) (m :: rest)).map
        (fun res => annotateRow row (vStr sid) res)

/-- The run counters of `process_csv` (lines 173-175): specimens
searched, found in MorphoSource, and verified. -/
structure Counters where
  processed : ℕ
  matched : ℕ
  verified : ℕ

/-- The counter updates performed while handling one row (lines 185-193:
no identifier, nothing counted; line 198: `processed += 1` after the
search; line 212: `matched += 1` when candidates exist; lines 317-318:
`verified += 1` when the bound info is `Verified`).  When the selection
block raises, the run aborts with the counters as of line 212. -/
def stepCounters (search : String → List MediaItem) (c : Counters) (row : Row) :
    Counters :=
  match construct_specimen_id
      (pyStr (rowGetD row "institution_code" (vStr "")))
      (pyStr (rowGetD row "collection_code" (vStr "")))
      (pyStr (rowGetD row "catalog_number" (vStr ""))) with
  | none => c
  | some sid =>
    match search sid with
    | [] => { c with processed := c.processed + 1 }
    | m :: rest =>
      let c1 : Counters := ⟨c.processed + 1, c.matched + 1, c.verified⟩
      match selectBestMatch (rowGetD row "Voxel_x_spacing" vNone)
          (rowGetD row "Voxel_y_spacing" vNone)
          (rowGetD row "Voxel_z_spacing" vNone) (m :: rest) with
      | .ok (some info) =>
        if info.status == "Verified" then
          { c1 with verified := c1.verified + 1 }
        else c1
      | .ok none => c1
      | .error _ => c1

/-- The two derived rates of the final summary (lines 359-362): the
search-success rate `matched/processed*100` is printed only when
`processed > 0`, and the verification rate `verified/matched*100` only
when `matched > 0`; `none` models the line being skipped. -/
def summaryRates (processed matched verified : ℕ) : Option ℚ × Option ℚ :=
  (if processed > 0 then some ((matched : ℚ) / (processed : ℚ) * 100) else none,
   if matched > 0 then some ((verified : ℚ) / (matched : ℚ) * 100) else none)

/-- Injection of an optional float (the specification's model of a remote
spacing value) into `PyVal`. -/
def optToPy : Option Dec → PyVal
  | none => vNone
  | some d => vFloat d

/-- Whether a `PyVal` is a float. -/
def PyVal.isFloat : PyVal → Bool
  | vFloat _ => true
  | _ => false

/-! ### Semantics of the decimal fixed-point model -/

theorem Dec.val_sub (a b : Dec) : (Dec.sub a b).val = a.val - b.val := by
  unfold Dec.val Dec.sub
  have ha : ((10 : ℚ) ^ a.exp) ≠ 0 := by positivity
  have hb : ((10 : ℚ) ^ b.exp) ≠ 0 := by positivity
  field_simp
  ring

theorem Dec.val_dabs (a : Dec) : (Dec.dabs a).val = |a.val| := by
  unfold Dec.val Dec.dabs
  rw [abs_div, abs_of_pos (show (0:ℚ) < 10 ^ a.exp by positivity)]
  push_cast
  rfl

theorem Dec.dle_iff (a b : Dec) : Dec.dle a b = true ↔ a.val ≤ b.val := by
  unfold Dec.dle Dec.val
  rw [decide_eq_true_iff]
  have ha : (0 : ℚ) < 10 ^ a.exp := by positivity
  have hb : (0 : ℚ) < 10 ^ b.exp := by positivity
  rw [div_le_div_iff₀ ha hb]
  constructor
  · intro h
    exact_mod_cast h
  · intro h
    exact_mod_cast h

/-- The tolerance test `abs(a - b) <= t` performed by the comparator, in
terms of the denoted rational values. -/
theorem Dec.within_tol_iff (a b t : Dec) :
    Dec.dle (Dec.dabs (Dec.sub a b)) t = true ↔ |a.val - b.val| ≤ t.val := by
  rw [Dec.dle_iff, Dec.val_dabs, Dec.val_sub]

theorem Dec.dist_symm (a b t : Dec) :
    Dec.dle (Dec.dabs (Dec.sub a b)) t = Dec.dle (Dec.dabs (Dec.sub b a)) t := by
  rw [Bool.eq_iff_iff, Dec.within_tol_iff, Dec.within_tol_iff, abs_sub_comm]

/-! ### Comparator lemmas -/

/-- If any remote argument is not a float, the comparator returns
`False` (the `abs` subtraction would raise a `TypeError`, which the
handler converts to `False`). -/
theorem compare_false_of_api_nonfloat (cx cy cz ax ay az : PyVal) (t : Dec)
    (h : ax.isFloat = false ∨ ay.isFloat = false ∨ az.isFloat = false) :
    compare_voxel_spacing cx cy cz ax ay az t = false := by
  unfold compare_voxel_spacing
  split
  · cases ax <;> cases ay <;> cases az <;> simp_all [PyVal.isFloat]
  · rfl

/-! ### Claims C6 and C7: the Spacing Comparator -/

/-- C6: for all local spacing values, remote optional floats and
tolerance `t`, the comparator returns `false` (not an error) whenever any
of the six values is missing or unconvertible, and otherwise returns
`true` iff the absolute difference is within `t` on every one of the
three axes. -/
theorem c6_comparator_contract (cx cy cz : PyVal) (ax ay az : Option Dec) (t : Dec) :
    (((∀ q : Dec, csvToFloat cx ≠ .ok (some q)) ∨ (∀ q : Dec, csvToFloat cy ≠ .ok (some q)) ∨
      (∀ q : Dec, csvToFloat cz ≠ .ok (some q)) ∨ ax = none ∨ ay = none ∨ az = none) →
      compare_voxel_spacing cx cy cz (optToPy ax) (optToPy ay) (optToPy az) t = false) ∧
    (∀ qx qy qz rx ry rz : Dec, csvToFloat cx = .ok (some qx) → csvToFloat cy = .ok (some qy) →
      csvToFloat cz = .ok (some qz) → ax = some rx → ay = some ry → az = some rz →
      (compare_voxel_spacing cx cy cz (optToPy ax) (optToPy ay) (optToPy az) t = true ↔
        (|qx.val - rx.val| ≤ t.val ∧ |qy.val - ry.val| ≤ t.val ∧ |qz.val - rz.val| ≤ t.val))) := by
  constructor
  · rintro (h | h | h | h | h | h)
    · rcases hx : csvToFloat cx with e | o
      · unfold compare_voxel_spacing
        rw [hx]
      · rcases o with _ | q
        · unfold compare_voxel_spacing
          rw [hx]
        · exact absurd hx (h q)
    · rcases hy : csvToFloat cy with e | o
      · unfold compare_voxel_spacing
        rw [hy]
        rcases csvToFloat cx with _ | o1 <;> try rfl
        rcases o1 with _ | _ <;> rfl
      · rcases o with _ | q
        · unfold compare_voxel_spacing
          rw [hy]
          rcases csvToFloat cx with _ | o1 <;> try rfl
          rcases o1 with _ | _ <;> rfl
        · exact absurd hy (h q)
    · rcases hz : csvToFloat cz with e | o
      · unfold compare_voxel_spacing
        rw [hz]
        rcases csvToFloat cx with _ | o1
        · rfl
        · rcases o1 with _ | _
          · rfl
          · rcases csvToFloat cy with _ | o2 <;> try rfl
            rcases o2 with _ | _ <;> rfl
      · rcases o with _ | q
        · unfold compare_voxel_spacing
          rw [hz]
          rcases csvToFloat cx with _ | o1
          · rfl
          · rcases o1 with _ | _
            · rfl
            · rcases csvToFloat cy with _ | o2 <;> try rfl
              rcases o2 with _ | _ <;> rfl
        · exact absurd hz (h q)
    · subst h
      exact compare_false_of_api_nonfloat _ _ _ _ _ _ _ (Or.inl rfl)
    · subst h
      exact compare_false_of_api_nonfloat _ _ _ _ _ _ _ (Or.inr (Or.inl rfl))
    · subst h
      exact compare_false_of_api_nonfloat _ _ _ _ _ _ _ (Or.inr (Or.inr rfl))
  · intro qx qy qz rx ry rz hx hy hz hax hay haz
    subst hax hay haz
    unfold compare_voxel_spacing
    rw [hx, hy, hz]
    show (Dec.dle (Dec.dabs (Dec.sub qx rx)) t && Dec.dle (Dec.dabs (Dec.sub qy ry)) t &&
      Dec.dle (Dec.dabs (Dec.sub qz rz)) t) = true ↔ _
    rw [Bool.and_eq_true, Bool.and_eq_true, Dec.within_tol_iff, Dec.within_tol_iff,
      Dec.within_tol_iff]
    tauto

/-- C6 witness: a blank local value on one axis makes the comparator
return `false`, and on fully supplied values the comparator agrees with
the three-axis tolerance conjunction. -/
theorem c6_witness :
    compare_voxel_spacing (vStr "1.0") (vStr "2.0") (vStr " ")
      (optToPy (some ⟨1, 0⟩)) (optToPy (some ⟨2, 0⟩)) (optToPy (some ⟨3, 0⟩)) ⟨1, 4⟩ = false ∧
    (compare_voxel_spacing (vStr "1.0") (vStr "2.0") (vStr "3.0")
      (optToPy (some ⟨1, 0⟩)) (optToPy (some ⟨2, 0⟩)) (optToPy (some ⟨3, 0⟩)) ⟨1, 4⟩ = true ↔
      (|Dec.val ⟨10, 1⟩ - Dec.val ⟨1, 0⟩| ≤ Dec.val ⟨1, 4⟩ ∧
       |Dec.val ⟨20, 1⟩ - Dec.val ⟨2, 0⟩| ≤ Dec.val ⟨1, 4⟩ ∧
       |Dec.val ⟨30, 1⟩ - Dec.val ⟨3, 0⟩| ≤ Dec.val ⟨1, 4⟩)) := by
  constructor
  · exact (c6_comparator_contract (vStr "1.0") (vStr "2.0") (vStr " ")
      (some ⟨1, 0⟩) (some ⟨2, 0⟩) (some ⟨3, 0⟩) ⟨1, 4⟩).1
      (Or.inr (Or.inr (Or.inl (fun q hq => by simp [csvToFloat, pyStrip, dropSpaces, isPySpace] at hq))))
  · exact (c6_comparator_contract (vStr "1.0") (vStr "2.0") (vStr "3.0")
      (some ⟨1, 0⟩) (some ⟨2, 0⟩) (some ⟨3, 0⟩) ⟨1, 4⟩).2 ⟨10, 1⟩ ⟨20, 1⟩ ⟨30, 1⟩ ⟨1, 0⟩ ⟨2, 0⟩ ⟨3, 0⟩
      rfl rfl rfl rfl rfl rfl

/-- C7: the comparator is symmetric in its two float triples at the
default tolerance, and the two concrete probes of the specification
evaluate as stated (`1.00005` within `0.0001` of `1.0`; `1.0002` not). -/
theorem c7_comparator_symmetric :
    (∀ a1 a2 a3 b1 b2 b3 : Dec,
      compare_voxel_spacing (vFloat a1) (vFloat a2) (vFloat a3)
        (vFloat b1) (vFloat b2) (vFloat b3) defaultTolerance =
      compare_voxel_spacing (vFloat b1) (vFloat b2) (vFloat b3)
        (vFloat a1) (vFloat a2) (vFloat a3) defaultTolerance) ∧
    compare_voxel_spacing (vFloat ⟨1, 0⟩) (vFloat ⟨2, 0⟩) (vFloat ⟨3, 0⟩)
      (vFloat ⟨100005, 5⟩) (vFloat ⟨2, 0⟩) (vFloat ⟨3, 0⟩) defaultTolerance = true ∧
    compare_voxel_spacing (vFloat ⟨1, 0⟩) (vFloat ⟨2, 0⟩) (vFloat ⟨3, 0⟩)
      (vFloat ⟨10002, 4⟩) (vFloat ⟨2, 0⟩) (vFloat ⟨3, 0⟩) defaultTolerance = false := by
  refine ⟨fun a1 a2 a3 b1 b2 b3 => ?_, by decide, by decide⟩
  show (Dec.dle (Dec.dabs (Dec.sub a1 b1)) defaultTolerance &&
      Dec.dle (Dec.dabs (Dec.sub a2 b2)) defaultTolerance &&
      Dec.dle (Dec.dabs (Dec.sub a3 b3)) defaultTolerance) =
    (Dec.dle (Dec.dabs (Dec.sub b1 a1)) defaultTolerance &&
      Dec.dle (Dec.dabs (Dec.sub b2 a2)) defaultTolerance &&
      Dec.dle (Dec.dabs (Dec.sub b3 a3)) defaultTolerance)
  rw [Dec.dist_symm a1 b1, Dec.dist_symm a2 b2, Dec.dist_symm a3 b3]

/-! ### Claim C2: the Identifier Builder -/

/-- C2 counterexample: the claim says a component that case-insensitively
equals the sentinel `nan`/`none` yields the no-identifier signal, but the
source's membership test `x in ['nan', 'None']` is case-sensitive, so
`"none"` and `"NaN"` pass through and an identifier is built from them. -/
theorem c2_counterexample :
    construct_specimen_id "MVZ" "Mammals" "none" = some "MVZ:Mammals:none" ∧
    construct_specimen_id "MVZ" "Mammals" "NaN" = some "MVZ:Mammals:NaN" := by
  exact ⟨rfl, rfl⟩

/-- C2 amended: the builder returns the no-identifier signal exactly when
some trimmed component is empty or is exactly the string `nan` or `None`
(case-sensitive); otherwise it returns the three trimmed values joined
with colons, case preserved (e.g. `MVZ`/`Mammals`/`  12345  ` gives
`MVZ:Mammals:12345`). -/
theorem c2_amended (i c n : String) :
    (construct_specimen_id i c n = none ↔
      (pyStrip i = "" ∨ pyStrip c = "" ∨ pyStrip n = "" ∨
       pyStrip i = "nan" ∨ pyStrip i = "None" ∨ pyStrip c = "nan" ∨ pyStrip c = "None" ∨
       pyStrip n = "nan" ∨ pyStrip n = "None")) ∧
    (construct_specimen_id i c n = none ∨
     construct_specimen_id i c n = some (pyStrip i ++ ":" ++ pyStrip c ++ ":" ++ pyStrip n)) ∧
    construct_specimen_id "MVZ" "Mammals" " 12345 " = some "MVZ:Mammals:12345" := by
  refine ⟨?_, ?_, by decide⟩
  · unfold construct_specimen_id
    dsimp only
    split
    · next hcond =>
      simp only [List.all_cons, List.all_nil, List.any_cons, List.any_nil, Bool.or_false,
        Bool.and_true, Bool.or_eq_true, Bool.not_eq_eq_eq_not, Bool.not_true, Bool.and_eq_false_iff,
        decide_eq_false_iff_not, not_not, beq_iff_eq] at hcond
      simp only [true_iff]
      tauto
    · next hcond =>
      simp only [List.all_cons, List.all_nil, List.any_cons, List.any_nil, Bool.or_false,
        Bool.and_true, Bool.or_eq_true, Bool.not_eq_eq_eq_not, Bool.not_true, Bool.and_eq_false_iff,
        decide_eq_false_iff_not, not_not, beq_iff_eq, not_or] at hcond
      simp only [reduceCtorEq, false_iff]
      push_neg
      tauto
  · unfold construct_specimen_id
    dsimp only
    split
    · exact Or.inl rfl
    · exact Or.inr rfl

/-! ### Claim C4: the Spacing Extractor's joint conversion block -/

/-- C4 counterexample: with `x = "1.5"`, `y = "abc"`, `z = "2.0"` the
conversion of `y` raises, yet the returned `x` is the converted float
`1.5` (`Dec` numerator 15 over one decimal place), not the pre-conversion
string `"1.5"` — so the three axes are not all returned with their
pre-conversion values. -/
theorem c4_counterexample :
    extract_voxel_spacing ⟨some (vStr "9"), vStr "1.5", vStr "abc", vStr "2.0"⟩ =
      (vFloat ⟨15, 1⟩, vStr "abc", vStr "2.0") ∧
    convStep (vStr "abc") = none := by
  exact ⟨rfl, rfl⟩

/-- C4 amended: the conversions run in order x, y, z inside one shared
`try`; the first failing axis aborts the block, so the axes before it are
returned converted while the failing axis and all later axes are returned
with their pre-conversion values (all three are pre-conversion only when
the x axis itself fails). -/
theorem c4_amended (m : MediaItem) :
    (convStep (get_first_value m.x_pixel_spacing) = none →
      extract_voxel_spacing m = (get_first_value m.x_pixel_spacing,
        get_first_value m.y_pixel_spacing, get_first_value m.z_pixel_spacing)) ∧
    (∀ x1, convStep (get_first_value m.x_pixel_spacing) = some x1 →
      convStep (get_first_value m.y_pixel_spacing) = none →
      extract_voxel_spacing m = (x1, get_first_value m.y_pixel_spacing,
        get_first_value m.z_pixel_spacing)) ∧
    (∀ x1 y1, convStep (get_first_value m.x_pixel_spacing) = some x1 →
      convStep (get_first_value m.y_pixel_spacing) = some y1 →
      convStep (get_first_value m.z_pixel_spacing) = none →
      extract_voxel_spacing m = (x1, y1, get_first_value m.z_pixel_spacing)) ∧
    (∀ x1 y1 z1, convStep (get_first_value m.x_pixel_spacing) = some x1 →
      convStep (get_first_value m.y_pixel_spacing) = some y1 →
      convStep (get_first_value m.z_pixel_spacing) = some z1 →
      extract_voxel_spacing m = (x1, y1, z1)) := by
  refine ⟨fun hx => ?_, fun x1 hx hy => ?_, fun x1 y1 hx hy hz => ?_, fun x1 y1 z1 hx hy hz => ?_⟩
  all_goals unfold extract_voxel_spacing
  all_goals dsimp only
  · rw [hx]
  · rw [hx, hy]
  · rw [hx, hy, hz]
  · rw [hx, hy, hz]

/-- C4 witness: a conversion failing on the y axis at a concrete media
item, with x returned converted and y, z pre-conversion. -/
theorem c4_witness :
    extract_voxel_spacing ⟨some (vStr "1"), vStr "7.5", vStr "zzz", vStr "3.25"⟩ =
      (vFloat ⟨75, 1⟩, vStr "zzz", vStr "3.25") :=
  (c4_amended ⟨some (vStr "1"), vStr "7.5", vStr "zzz", vStr "3.25"⟩).2.1
    (vFloat ⟨75, 1⟩) rfl rfl

/-! ### Claim C3: non-numeric spacing content downstream -/

theorem hasFullSpacing_isNone {m : MediaItem} (h : hasFullSpacing m = true) :
    (extract_voxel_spacing m).1.isNone = false ∧
    (extract_voxel_spacing m).2.1.isNone = false ∧
    (extract_voxel_spacing m).2.2.isNone = false := by
  unfold hasFullSpacing at h
  simp only [Bool.and_eq_true, Bool.not_eq_true'] at h
  exact ⟨h.1.1, h.1.2, h.2⟩

/-- Translating an `Available but no spacing match` info with non-`None`
spacing values into result columns yields `Mismatch` with the stringified
bound values. -/
theorem setResultFields_available (mid : String) (e1 e2 e3 : PyVal)
    (h1 : e1.isNone = false) (h2 : e2.isNone = false) (h3 : e3.isNone = false) :
    setResultFields (some ⟨mid, e1, e2, e3, "Available but no spacing match"⟩) =
      ⟨"Found", mid, "Mismatch", pyStr e1, pyStr e2, pyStr e3⟩ := by
  unfold setResultFields
  simp only [h1, h2, h3]
  rfl

/-- When the comparator rejects every candidate, the first candidate loop
finds nothing. -/
theorem findVerified_none_of_compare_false (cx cy cz : PyVal) (ms : List MediaItem)
    (h : ∀ m ∈ ms, compare_voxel_spacing cx cy cz (extract_voxel_spacing m).1
      (extract_voxel_spacing m).2.1 (extract_voxel_spacing m).2.2 defaultTolerance = false) :
    findVerified cx cy cz ms = none := by
  induction ms with
  | nil => rfl
  | cons a l ih =>
    have ha := h a (List.mem_cons_self a l)
    unfold findVerified
    dsimp only
    rw [ha]
    simp only [Bool.and_false, Bool.false_eq_true, if_false]
    exact ih fun m hm => h m (List.mem_cons_of_mem a hm)

/-- C3 counterexample: a candidate whose x spacing holds the non-numeric
string `"abc"` is still counted as an available scan (the availability
test is only `is not None`), and the raw string is bound into the
`Mismatch` outcome's `api_x_spacing` column. -/
theorem c3_counterexample :
    (extract_voxel_spacing ⟨some (vStr "M7"), vStr "abc", vStr "2.0", vStr "3.0"⟩).1 =
      vStr "abc" ∧
    hasFullSpacing ⟨some (vStr "M7"), vStr "abc", vStr "2.0", vStr "3.0"⟩ = true ∧
    rowOutcome (vFloat ⟨1, 0⟩) (vFloat ⟨2, 0⟩) (vFloat ⟨3, 0⟩)
      [⟨some (vStr "M7"), vStr "abc", vStr "2.0", vStr "3.0"⟩] =
      .ok ⟨"Found", "M7", "Mismatch", "abc", "2.0", "3.0"⟩ := by
  exact ⟨rfl, rfl, rfl⟩

/-- C3 amended: a candidate with a non-float spacing axis can never
verify (the comparator returns `false` on it), but the availability test
checks only `is not None`, so when all three extracted values are
non-`None` such a record is selected as the (sole) available scan and its
raw values — stringified — are bound into the `Mismatch` outcome. -/
theorem c3_amended :
    (∀ (cx cy cz ax ay az : PyVal) (t : Dec),
      ax.isFloat = false ∨ ay.isFloat = false ∨ az.isFloat = false →
      compare_voxel_spacing cx cy cz ax ay az t = false) ∧
    (∀ (cx cy cz : PyVal) (m : MediaItem),
      hasFullSpacing m = true →
      ((extract_voxel_spacing m).1.isFloat = false ∨
        (extract_voxel_spacing m).2.1.isFloat = false ∨
        (extract_voxel_spacing m).2.2.isFloat = false) →
      rowOutcome cx cy cz [m] =
        .ok ⟨"Found", mediaIdStr m, "Mismatch", pyStr (extract_voxel_spacing m).1,
          pyStr (extract_voxel_spacing m).2.1, pyStr (extract_voxel_spacing m).2.2⟩) := by
  refine ⟨fun cx cy cz ax ay az t h => compare_false_of_api_nonfloat cx cy cz ax ay az t h, ?_⟩
  intro cx cy cz m hfull hnf
  have hcmp := compare_false_of_api_nonfloat cx cy cz (extract_voxel_spacing m).1
    (extract_voxel_spacing m).2.1 (extract_voxel_spacing m).2.2 defaultTolerance hnf
  have hfv : findVerified cx cy cz [m] = none :=
    findVerified_none_of_compare_false cx cy cz [m] (by
      intro m' hm'
      rw [List.mem_singleton] at hm'
      subst hm'
      exact hcmp)
  obtain ⟨h1, h2, h3⟩ := hasFullSpacing_isNone hfull
  unfold rowOutcome selectBestMatch
  rw [hfv]
  unfold available_scans
  dsimp only
  rw [hfull]
  simp only [if_true]
  show Except.ok (setResultFields (some ⟨mediaIdStr m, (extract_voxel_spacing m).1,
    (extract_voxel_spacing m).2.1, (extract_voxel_spacing m).2.2,
    "Available but no spacing match"⟩)) = _
  rw [setResultFields_available (mediaIdStr m) _ _ _ h1 h2 h3]

/-- C3 witness: the amended behaviour at a concrete candidate whose axes
hold the raw strings `xx`, `2.0`, `3.0` (conversion fails on x, leaving
all three raw). -/
theorem c3_witness :
    rowOutcome (vFloat ⟨1, 0⟩) (vFloat ⟨2, 0⟩) (vFloat ⟨3, 0⟩)
      [⟨some (vStr "M8"), vStr "xx", vStr "2.0", vStr "3.0"⟩] =
      .ok ⟨"Found", "M8", "Mismatch", "xx", "2.0", "3.0"⟩ :=
  c3_amended.2 (vFloat ⟨1, 0⟩) (vFloat ⟨2, 0⟩) (vFloat ⟨3, 0⟩)
    ⟨some (vStr "M8"), vStr "xx", vStr "2.0", vStr "3.0"⟩ rfl (Or.inl rfl)

/-! ### Claim C1: the Mismatch binding of the Match Selector -/

/-- The defining equation of `available_scans` on a non-empty list. -/
theorem available_scans_cons (m : MediaItem) (rest : List MediaItem) :
    available_scans (m :: rest) =
      if hasFullSpacing m then
        ⟨mediaIdStr m, (extract_voxel_spacing m).1, (extract_voxel_spacing m).2.1,
          (extract_voxel_spacing m).2.2⟩ :: available_scans rest
      else if pyTruthy (getMediaId m) then
        ⟨pyStr (getMediaId m), vNone, vNone, vNone⟩ :: available_scans rest
      else available_scans rest := rfl

/-- Candidates with neither full (non-`None`) spacing nor a truthy media
id contribute no entry to `available_scans`. -/
theorem available_scans_skip (ms1 ms2 : List MediaItem)
    (h : ∀ m' ∈ ms1, hasFullSpacing m' = false ∧ pyTruthy (getMediaId m') = false) :
    available_scans (ms1 ++ ms2) = available_scans ms2 := by
  induction ms1 with
  | nil => rfl
  | cons a l ih =>
    have ha := h a (List.mem_cons_self a l)
    show available_scans (a :: (l ++ ms2)) = _
    rw [available_scans_cons, ha.1, ha.2]
    simp only [Bool.false_eq_true, if_false]
    exact ih fun m' hm' => h m' (List.mem_cons_of_mem a hm')

/-- C1 counterexample: two identity-filtered candidates, `M1` with a
truthy id but no spacing and `M2` with fully-known float spacing; no
candidate verifies against local spacing `9.0`.  The claim demands
`Mismatch` bound to `M2` (the first available scan), but the code's
`available_scans` list also admits id-only entries, takes its first
element — `M1` — and, since that entry's spacing is `None`, emits
`Missing Data` bound to `M1`. -/
theorem c1_counterexample :
    hasFullSpacing ⟨some (vStr "M2"), vStr "1.0", vStr "2.0", vStr "3.0"⟩ = true ∧
    extract_voxel_spacing ⟨some (vStr "M2"), vStr "1.0", vStr "2.0", vStr "3.0"⟩ =
      (vFloat ⟨10, 1⟩, vFloat ⟨20, 1⟩, vFloat ⟨30, 1⟩) ∧
    findVerified (vStr "9.0") (vStr "9.0") (vStr "9.0")
      [⟨some (vStr "M1"), vNone, vNone, vNone⟩,
       ⟨some (vStr "M2"), vStr "1.0", vStr "2.0", vStr "3.0"⟩] = none ∧
    rowOutcome (vStr "9.0") (vStr "9.0") (vStr "9.0")
      [⟨some (vStr "M1"), vNone, vNone, vNone⟩,
       ⟨some (vStr "M2"), vStr "1.0", vStr "2.0", vStr "3.0"⟩] =
      .ok ⟨"Found", "M1", "Missing Data", "", "", ""⟩ := by
  exact ⟨rfl, rfl, rfl, rfl⟩

/-- C1 amended: when no candidate verifies, the selector binds the first
candidate in catalog order having either all-axes non-`None` extracted
spacing or a truthy id; the outcome is `Mismatch` bound to that
candidate's id and (stringified) spacing exactly when that candidate's
spacing is all non-`None` — so the first available scan is bound only if
no id-only candidate precedes it in catalog order. -/
theorem c1_amended (cx cy cz : PyVal) (ms1 ms2 : List MediaItem) (m : MediaItem)
    (hv : findVerified cx cy cz (ms1 ++ m :: ms2) = none)
    (hskip : ∀ m' ∈ ms1, hasFullSpacing m' = false ∧ pyTruthy (getMediaId m') = false)
    (hfull : hasFullSpacing m = true) :
    rowOutcome cx cy cz (ms1 ++ m :: ms2) =
      .ok ⟨"Found", mediaIdStr m, "Mismatch", pyStr (extract_voxel_spacing m).1,
        pyStr (extract_voxel_spacing m).2.1, pyStr (extract_voxel_spacing m).2.2⟩ := by
  obtain ⟨h1, h2, h3⟩ := hasFullSpacing_isNone hfull
  unfold rowOutcome selectBestMatch
  rw [hv, available_scans_skip ms1 (m :: ms2) hskip, available_scans_cons, hfull]
  simp only [if_true]
  show Except.ok (setResultFields (some ⟨mediaIdStr m, (extract_voxel_spacing m).1,
    (extract_voxel_spacing m).2.1, (extract_voxel_spacing m).2.2,
    "Available but no spacing match"⟩)) = _
  rw [setResultFields_available (mediaIdStr m) _ _ _ h1 h2 h3]

/-- C1 witness: the amended behaviour at a concrete candidate list — a
skipped id-less, spacing-less candidate followed by a full-spacing
candidate `M2` that does not verify. -/
theorem c1_witness :
    rowOutcome (vStr "9.0") (vStr "9.0") (vStr "9.0")
      [⟨none, vNone, vNone, vNone⟩, ⟨some (vStr "M2"), vStr "abc", vStr "def", vStr "ghi"⟩] =
      .ok ⟨"Found", "M2", "Mismatch", "abc", "def", "ghi"⟩ :=
  c1_amended (vStr "9.0") (vStr "9.0") (vStr "9.0")
    [⟨none, vNone, vNone, vNone⟩] [] ⟨some (vStr "M2"), vStr "abc", vStr "def", vStr "ghi"⟩
    rfl
    (by
      intro m' hm'
      rw [List.mem_singleton] at hm'
      subst hm'
      exact ⟨rfl, rfl⟩)
    rfl

/-! ### Claim C5: the MissingData fallback -/

/-- C5: a row with a valid identifier whose sole candidate has the `'id'`
key present but empty (and no spacing) satisfies the claim's
precondition — no extractable id, no usable spacing — yet the fallback
expression `str(media_items[0].get('id', [''])[0])` subscripts the empty
string, raising an uncaught `IndexError` that aborts the whole run
instead of emitting `Missing Data` with an empty id. -/
theorem c5_code_crash :
    pyTruthy (getMediaId ⟨some (vStr ""), vNone, vNone, vNone⟩) = false ∧
    hasFullSpacing ⟨some (vStr ""), vNone, vNone, vNone⟩ = false ∧
    processRow (fun _ => [⟨some (vStr ""), vNone, vNone, vNone⟩])
      [("institution_code", vStr "MVZ"), ("collection_code", vStr "Mammals"),
       ("catalog_number", vStr "12345"), ("Voxel_x_spacing", vStr "1.0"),
       ("Voxel_y_spacing", vStr "2.0"), ("Voxel_z_spacing", vStr "3.0")] =
      .error () := by
  exact ⟨rfl, rfl, rfl⟩

/-! ### Claim C8: the derived summary rates -/

/-- C8: each derived rate is reported (`some`) exactly when its
denominator is nonzero, with the value the source computes; a zero
denominator yields `none` (the print is skipped), never a division
error. -/
theorem c8_rates_guarded (p m v : ℕ) :
    ((summaryRates p m v).1 = none ↔ p = 0) ∧
    ((summaryRates p m v).2 = none ↔ m = 0) ∧
    (0 < p → (summaryRates p m v).1 = some ((m : ℚ) / (p : ℚ) * 100)) ∧
    (0 < m → (summaryRates p m v).2 = some ((v : ℚ) / (m : ℚ) * 100)) := by
  unfold summaryRates
  dsimp only
  refine ⟨?_, ?_, ?_, ?_⟩
  · split
    · next h => simp only [reduceCtorEq, false_iff]; omega
    · next h => simp only [true_iff]; omega
  · split
    · next h => simp only [reduceCtorEq, false_iff]; omega
    · next h => simp only [true_iff]; omega
  · intro h
    simp only [h, if_true]
  · intro h
    simp only [h, if_true]

/-- C8 witness: with two searched, one found, zero verified the search
rate is reported as 50%; with nothing searched it is omitted. -/
theorem c8_witness :
    (summaryRates 2 1 0).1 = some ((1 : ℚ) / (2 : ℚ) * 100) ∧
    (summaryRates 0 0 0).1 = none := by
  exact ⟨(c8_rates_guarded 2 1 0).2.2.1 (by decide),
    ((c8_rates_guarded 0 0 0).1).mpr rfl⟩

/-! ### Claim C9: the frame effect of row annotation -/

/-- The seven columns appended by the processor. -/
def resultColumnNames : List String :=
  ["constructed_specimen_id", "morphosource_status", "matched_media_id", "match_status",
   "api_x_spacing", "api_y_spacing", "api_z_spacing"]

/-- Assigning to a column absent from the row appends it. -/
theorem setItem_of_absent (r : Row) (k : String) (v : PyVal)
    (h : r.any (fun p => p.1 == k) = false) : setItem r k v = r ++ [(k, v)] := by
  unfold setItem
  rw [h]
  rfl

/-- Assigning a fresh column to an already-extended row appends it after
the previous extensions. -/
theorem setItem_append_fresh (r tail : Row) (k : String) (v : PyVal)
    (hr : r.any (fun p => p.1 == k) = false) (ht : tail.any (fun p => p.1 == k) = false) :
    setItem (r ++ tail) k v = r ++ (tail ++ [(k, v)]) := by
  rw [setItem_of_absent (r ++ tail) k v (by rw [List.any_append, hr, ht]; rfl),
    List.append_assoc]

/-- C9 counterexample: a caller-supplied extra column named
`match_status` (value `KEEP`) is not passed through unchanged — the
processor's assignment overwrites it in place with the computed value
`No`. -/
theorem c9_counterexample :
    processRow (fun _ => [])
      [("institution_code", vStr "MVZ"), ("collection_code", vStr "Mammals"),
       ("catalog_number", vStr ""), ("match_status", vStr "KEEP")] =
      .ok [("institution_code", vStr "MVZ"), ("collection_code", vStr "Mammals"),
       ("catalog_number", vStr ""), ("match_status", vStr "No"),
       ("constructed_specimen_id", vNone), ("morphosource_status", vStr "No Specimen ID"),
       ("matched_media_id", vStr ""), ("api_x_spacing", vStr ""),
       ("api_y_spacing", vStr ""), ("api_z_spacing", vStr "")] ∧
    vStr "KEEP" ≠ vStr "No" := by
  refine ⟨rfl, ?_⟩
  intro h
  injection h with h'
  exact absurd h' (by decide)

/-- Annotating a row whose columns avoid the seven result names appends
exactly those seven columns and leaves the original columns unchanged. -/
theorem annotateRow_of_fresh (r : Row) (sid : PyVal) (res : RowResult)
    (h : ∀ k ∈ resultColumnNames, r.any (fun p => p.1 == k) = false) :
    annotateRow r sid res = r ++
      [("constructed_specimen_id", sid), ("morphosource_status", vStr res.morphosource_status),
       ("matched_media_id", vStr res.matched_media_id), ("match_status", vStr res.match_status),
       ("api_x_spacing", vStr res.api_x_spacing), ("api_y_spacing", vStr res.api_y_spacing),
       ("api_z_spacing", vStr res.api_z_spacing)] := by
  have h1 := h "constructed_specimen_id" (by simp [resultColumnNames])
  have h2 := h "morphosource_status" (by simp [resultColumnNames])
  have h3 := h "matched_media_id" (by simp [resultColumnNames])
  have h4 := h "match_status" (by simp [resultColumnNames])
  have h5 := h "api_x_spacing" (by simp [resultColumnNames])
  have h6 := h "api_y_spacing" (by simp [resultColumnNames])
  have h7 := h "api_z_spacing" (by simp [resultColumnNames])
  unfold annotateRow
  dsimp only
  rw [setItem_of_absent r "constructed_specimen_id" sid h1]
  rw [setItem_append_fresh r [("constructed_specimen_id", sid)]
    "morphosource_status" (vStr res.morphosource_status) h2 rfl]
  simp only [List.cons_append, List.nil_append]
  rw [setItem_append_fresh r
    [("constructed_specimen_id", sid), ("morphosource_status", vStr res.morphosource_status)]
    "matched_media_id" (vStr res.matched_media_id) h3 rfl]
  simp only [List.cons_append, List.nil_append]
  rw [setItem_append_fresh r
    [("constructed_specimen_id", sid), ("morphosource_status", vStr res.morphosource_status),
     ("matched_media_id", vStr res.matched_media_id)]
    "match_status" (vStr res.match_status) h4 rfl]
  simp only [List.cons_append, List.nil_append]
  rw [setItem_append_fresh r
    [("constructed_specimen_id", sid), ("morphosource_status", vStr res.morphosource_status),
     ("matched_media_id", vStr res.matched_media_id), ("match_status", vStr res.match_status)]
    "api_x_spacing" (vStr res.api_x_spacing) h5 rfl]
  simp only [List.cons_append, List.nil_append]
  rw [setItem_append_fresh r
    [("constructed_specimen_id", sid), ("morphosource_status", vStr res.morphosource_status),
     ("matched_media_id", vStr res.matched_media_id), ("match_status", vStr res.match_status),
     ("api_x_spacing", vStr res.api_x_spacing)]
    "api_y_spacing" (vStr res.api_y_spacing) h6 rfl]
  simp only [List.cons_append, List.nil_append]
  rw [setItem_append_fresh r
    [("constructed_specimen_id", sid), ("morphosource_status", vStr res.morphosource_status),
     ("matched_media_id", vStr res.matched_media_id), ("match_status", vStr res.match_status),
     ("api_x_spacing", vStr res.api_x_spacing), ("api_y_spacing", vStr res.api_y_spacing)]
    "api_z_spacing" (vStr res.api_z_spacing) h7 rfl]
  simp only [List.cons_append, List.nil_append]

/-- C9 amended: provided no original column shares a name with the seven
result columns, the emitted row is the original row — every original
field, caller-supplied extras included, unchanged and in order — plus
exactly the seven appended result columns; a colliding original column
is instead overwritten in place with the computed value.  (The original
input table itself is never mutated: the processor works on a copy.) -/
theorem c9_amended (search : String → List MediaItem) (r : Row) (out : Row)
    (hfresh : ∀ k ∈ resultColumnNames, r.any (fun p => p.1 == k) = false)
    (hok : processRow search r = .ok out) :
    ∃ sid res, out = r ++
      [("constructed_specimen_id", sid),
       ("morphosource_status", vStr (res : RowResult).morphosource_status),
       ("matched_media_id", vStr res.matched_media_id), ("match_status", vStr res.match_status),
       ("api_x_spacing", vStr res.api_x_spacing), ("api_y_spacing", vStr res.api_y_spacing),
       ("api_z_spacing", vStr res.api_z_spacing)] := by
  unfold processRow at hok
  split at hok
  · refine ⟨vNone, ⟨"No Specimen ID", "", "No", "", "", ""⟩, ?_⟩
    rw [← annotateRow_of_fresh r vNone ⟨"No Specimen ID", "", "No", "", "", ""⟩ hfresh]
    exact (Except.ok.inj hok).symm
  · next sid _ =>
    split at hok
    · refine ⟨vStr sid, ⟨"Not Found", "", "No", "", "", ""⟩, ?_⟩
      rw [← annotateRow_of_fresh r (vStr sid) ⟨"Not Found", "", "No", "", "", ""⟩ hfresh]
      exact (Except.ok.inj hok).symm
    · next m rest _ =>
      rcases ho : rowOutcome (rowGetD r "Voxel_x_spacing" vNone)
          (rowGetD r "Voxel_y_spacing" vNone) (rowGetD r "Voxel_z_spacing" vNone)
          (m :: rest) with e | res
      · rw [ho] at hok
        exact absurd hok (by simp [Except.map])
      · rw [ho] at hok
        simp only [Except.map] at hok
        refine ⟨vStr sid, res, ?_⟩
        rw [← annotateRow_of_fresh r (vStr sid) res hfresh]
        exact (Except.ok.inj hok).symm

/-- C9 witness: the amended frame property on a concrete row with one
extra caller column `site`: the emitted row is the input row plus the
seven result columns. -/
theorem c9_witness :
    ∃ sid res,
      ([("institution_code", vStr "MVZ"), ("collection_code", vStr "M"),
        ("catalog_number", vStr "1"), ("site", vStr "quarry 5"),
        ("constructed_specimen_id", vStr "MVZ:M:1"), ("morphosource_status", vStr "Not Found"),
        ("matched_media_id", vStr ""), ("match_status", vStr "No"),
        ("api_x_spacing", vStr ""), ("api_y_spacing", vStr ""),
        ("api_z_spacing", vStr "")] : Row) =
      [("institution_code", vStr "MVZ"), ("collection_code", vStr "M"),
       ("catalog_number", vStr "1"), ("site", vStr "quarry 5")] ++
      [("constructed_specimen_id", sid),
       ("morphosource_status", vStr (res : RowResult).morphosource_status),
       ("matched_media_id", vStr res.matched_media_id), ("match_status", vStr res.match_status),
       ("api_x_spacing", vStr res.api_x_spacing), ("api_y_spacing", vStr res.api_y_spacing),
       ("api_z_spacing", vStr res.api_z_spacing)] :=
  c9_amended (fun _ => [])
    [("institution_code", vStr "MVZ"), ("collection_code", vStr "M"),
     ("catalog_number", vStr "1"), ("site", vStr "quarry 5")]
    [("institution_code", vStr "MVZ"), ("collection_code", vStr "M"),
     ("catalog_number", vStr "1"), ("site", vStr "quarry 5"),
     ("constructed_specimen_id", vStr "MVZ:M:1"), ("morphosource_status", vStr "Not Found"),
     ("matched_media_id", vStr ""), ("match_status", vStr "No"),
     ("api_x_spacing", vStr ""), ("api_y_spacing", vStr ""), ("api_z_spacing", vStr "")]
    (by decide) rfl

/-! ### Claim C10: the run counters -/

/-- Per-row counter deltas: each counter is non-decreasing, grows by at
most one per row, and the verified delta is bounded by the matched delta,
which is bounded by the processed delta. -/
theorem stepCounters_delta (search : String → List MediaItem) (c : Counters) (r : Row) :
    c.processed ≤ (stepCounters search c r).processed ∧
    (stepCounters search c r).processed ≤ c.processed + 1 ∧
    c.matched ≤ (stepCounters search c r).matched ∧
    (stepCounters search c r).matched ≤ c.matched + 1 ∧
    c.verified ≤ (stepCounters search c r).verified ∧
    (stepCounters search c r).verified ≤ c.verified + 1 ∧
    (stepCounters search c r).verified + c.matched ≤ c.verified + (stepCounters search c r).matched ∧
    (stepCounters search c r).matched + c.processed ≤ c.matched + (stepCounters search c r).processed := by
  unfold stepCounters
  split
  · omega
  · split
    · dsimp only
      omega
    · split
      · split
        · dsimp only
          omega
        · dsimp only
          omega
      · dsimp only
        omega
      · dsimp only
        omega

theorem countersRun_inv (search : String → List MediaItem) (rows : List Row) (c : Counters)
    (h1 : c.verified ≤ c.matched) (h2 : c.matched ≤ c.processed) :
    (List.foldl (stepCounters search) c rows).verified ≤
      (List.foldl (stepCounters search) c rows).matched ∧
    (List.foldl (stepCounters search) c rows).matched ≤
      (List.foldl (stepCounters search) c rows).processed ∧
    (List.foldl (stepCounters search) c rows).processed ≤ c.processed + rows.length := by
  induction rows generalizing c with
  | nil => exact ⟨h1, h2, Nat.le_refl _⟩
  | cons r rest ih =>
    obtain ⟨d1, d2, d3, d4, d5, d6, d7, d8⟩ := stepCounters_delta search c r
    obtain ⟨i1, i2, i3⟩ := ih (stepCounters search c r) (by omega) (by omega)
    simp only [List.foldl_cons, List.length_cons]
    exact ⟨i1, i2, by omega⟩

/-- C10: over any run, after folding the per-row counter updates the
counters satisfy `verified ≤ matched ≤ processed ≤ rows handled`, and on
every single row each counter increases by at most one, with a verified
increment implying a matched increment and a matched increment implying a
processed one. -/
theorem c10_counters_invariant (search : String → List MediaItem) (rows : List Row) :
    ((List.foldl (stepCounters search) ⟨0, 0, 0⟩ rows).verified ≤
      (List.foldl (stepCounters search) ⟨0, 0, 0⟩ rows).matched ∧
     (List.foldl (stepCounters search) ⟨0, 0, 0⟩ rows).matched ≤
      (List.foldl (stepCounters search) ⟨0, 0, 0⟩ rows).processed ∧
     (List.foldl (stepCounters search) ⟨0, 0, 0⟩ rows).processed ≤ rows.length) ∧
    (∀ (c : Counters) (r : Row),
      c.processed ≤ (stepCounters search c r).processed ∧
      (stepCounters search c r).processed ≤ c.processed + 1 ∧
      c.matched ≤ (stepCounters search c r).matched ∧
      (stepCounters search c r).matched ≤ c.matched + 1 ∧
      c.verified ≤ (stepCounters search c r).verified ∧
      (stepCounters search c r).verified ≤ c.verified + 1 ∧
      (stepCounters search c r).verified + c.matched ≤
        c.verified + (stepCounters search c r).matched ∧
      (stepCounters search c r).matched + c.processed ≤
        c.matched + (stepCounters search c r).processed) := by
  refine ⟨?_, fun c r => stepCounters_delta search c r⟩
  obtain ⟨i1, i2, i3⟩ := countersRun_inv search rows ⟨0, 0, 0⟩ (Nat.le_refl 0) (Nat.le_refl 0)
  exact ⟨i1, i2, by simpa using i3⟩
